import Mathlib

/-!
Verification of the TranslatorApp repository (translator_app v1.0.py and
translator_app v1.1.py), a PyQt6 bidirectional translator with
multi-provider translation and TTS.  External collaborators (network
providers, the OpenCC converter, the Qt widgets, the file system) are
modelled as explicit oracle inputs and state fields; the Python methods
that the claims cite are embedded as pure functions on those states.
-/

namespace TranslatorApp

/-- Python str.strip(): removes leading and trailing whitespace.  Written
with structural recursion over the character list so that it evaluates by
kernel reduction. -/
def pyStrip (s : String) : String :=
  String.mk (((s.data.dropWhile Char.isWhitespace).reverse.dropWhile Char.isWhitespace).reverse)

/-- Python list slice l[-n:]: the last n elements of the list (the whole
list when it has fewer than n elements). -/
def takeLast {α : Type} (n : Nat) (l : List α) : List α :=
  l.drop (l.length - n)

lemma takeLast_of_length_le {α : Type} {n : Nat} {l : List α}
    (h : l.length ≤ n) : takeLast n l = l := by
  unfold takeLast
  rw [Nat.sub_eq_zero_of_le h]
  exact List.drop_zero l

lemma takeLast_length_le {α : Type} (n : Nat) (l : List α) :
    (takeLast n l).length ≤ n := by
  unfold takeLast
  rw [List.length_drop]
  omega

lemma cond_takeLast {α : Type} (l : List α) :
    (if l.length > 10 then takeLast 10 l else l) = takeLast 10 l := by
  by_cases h : l.length > 10
  · rw [if_pos h]
  · rw [if_neg h, takeLast_of_length_le (by omega)]

/-- A learned example: one of the JSON objects stored under the settings
key translation_examples, as built in save_correction. -/
structure LearnedExample where
  source : String
  translation : String
deriving DecidableEq, Repr

/-- The state touched by save_correction: self.last_source_text, the
correction_input line edit, and the stored translation_examples list in
QSettings. -/
structure LearnState where
  lastSourceText : String
  correctionInput : String
  storedExamples : List LearnedExample
deriving DecidableEq, Repr

/-- Outcome of save_correction: rejected means the validation warning was
shown and the method returned early; saved means the examples list was
written back to QSettings. -/
inductive SaveOutcome where
  | rejected
  | saved
deriving DecidableEq, Repr

/-- TranslatorApp.save_correction of v1.1 (lines 388-402).  Trims the last
source text and the correction input; rejects if either is empty;
otherwise appends the pair unless already present, always keeps the last
10 entries (examples[-10:]), persists, and clears the correction input. -/
def save_correction_v11 (s : LearnState) : LearnState × SaveOutcome :=
  let source_text := pyStrip s.lastSourceText
  let corrected_translation := pyStrip s.correctionInput
  if source_text = "" ∨ corrected_translation = "" then
    (s, SaveOutcome.rejected)
  else
    let examples := s.storedExamples
    let new_example : LearnedExample := ⟨source_text, corrected_translation⟩
    let examples := if new_example ∈ examples then examples else examples ++ [new_example]
    let examples := takeLast 10 examples
    ({ s with storedExamples := examples, correctionInput := "" }, SaveOutcome.saved)

/-- TranslatorApp.save_correction of v1.0 (lines 217-242).  Identical to
v1.1 except that the truncation to the last 10 entries only runs when the
list length exceeds 10. -/
def save_correction_v10 (s : LearnState) : LearnState × SaveOutcome :=
  let source_text := pyStrip s.lastSourceText
  let corrected_translation := pyStrip s.correctionInput
  if source_text = "" ∨ corrected_translation = "" then
    (s, SaveOutcome.rejected)
  else
    let examples := s.storedExamples
    let new_example : LearnedExample := ⟨source_text, corrected_translation⟩
    let examples := if new_example ∈ examples then examples else examples ++ [new_example]
    let examples := if examples.length > 10 then takeLast 10 examples else examples
    ({ s with storedExamples := examples, correctionInput := "" }, SaveOutcome.saved)

/-- C2: for every stored example list (the store invariant gives length at
most 10) and every pair non-empty after trimming, save_correction leaves
the stored list unchanged when the identical pair is already present,
otherwise appends it and keeps only the most recent 10 entries; in every
case the resulting stored list has length at most 10. -/
theorem save_correction_store_contract (s : LearnState)
    (hsrc : pyStrip s.lastSourceText ≠ "") (hcor : pyStrip s.correctionInput ≠ "")
    (hlen : s.storedExamples.length ≤ 10) :
    (((⟨pyStrip s.lastSourceText, pyStrip s.correctionInput⟩ : LearnedExample) ∈ s.storedExamples →
        ((save_correction_v11 s).1).storedExamples = s.storedExamples)
    ∧ ((⟨pyStrip s.lastSourceText, pyStrip s.correctionInput⟩ : LearnedExample) ∉ s.storedExamples →
        ((save_correction_v11 s).1).storedExamples =
          takeLast 10 (s.storedExamples ++ [⟨pyStrip s.lastSourceText, pyStrip s.correctionInput⟩]))
    ∧ ((save_correction_v11 s).1).storedExamples.length ≤ 10) := by
  have hcond : ¬ (pyStrip s.lastSourceText = "" ∨ pyStrip s.correctionInput = "") := by
    tauto
  unfold save_correction_v11
  rw [if_neg hcond]
  refine ⟨?_, ?_, ?_⟩
  · intro hmem
    simp only [if_pos hmem]
    exact takeLast_of_length_le hlen
  · intro hmem
    simp only [if_neg hmem]
  · by_cases hmem : (⟨pyStrip s.lastSourceText, pyStrip s.correctionInput⟩ : LearnedExample) ∈ s.storedExamples
    · simp only [if_pos hmem]
      exact takeLast_length_le 10 s.storedExamples
    · simp only [if_neg hmem]
      exact takeLast_length_le 10 _

/-- Concrete instance of the C2 theorem. -/
def c2State : LearnState :=
  { lastSourceText := "Hi ", correctionInput := " 你好", storedExamples := [] }

theorem save_correction_store_contract_witness :
    ((save_correction_v11 c2State).1).storedExamples = [⟨"Hi", "你好"⟩] := by
  have h := (save_correction_store_contract c2State (by decide) (by decide)
    (by decide)).2.1 (by decide)
  rw [h]
  decide

/-- C9: a learning attempt with the last source text or the correction
empty after trimming is rejected and has no side effects at all: the
entire learn state, in particular the stored example list and the
correction input, is returned unchanged. -/
theorem save_correction_rejects_empty (s : LearnState)
    (h : pyStrip s.lastSourceText = "" ∨ pyStrip s.correctionInput = "") :
    save_correction_v11 s = (s, SaveOutcome.rejected) := by
  unfold save_correction_v11
  rw [if_pos h]

/-- Concrete instance of the C9 theorem: learning with source "Hi" and an
empty correction is rejected and changes nothing. -/
def c9State : LearnState :=
  { lastSourceText := "Hi", correctionInput := "", storedExamples := [⟨"a", "b"⟩] }

theorem save_correction_rejects_empty_witness :
    save_correction_v11 c9State = (c9State, SaveOutcome.rejected) :=
  save_correction_rejects_empty c9State (by decide)

/-- C10: on every prior stored list and every pair non-empty after
trimming, the v1.0 and v1.1 implementations of save_correction produce
the same resulting state (in particular they persist the same example
list): the conditional truncation of v1.0 agrees with the unconditional
one of v1.1. -/
theorem save_correction_v10_v11_agree (s : LearnState)
    (hsrc : pyStrip s.lastSourceText ≠ "") (hcor : pyStrip s.correctionInput ≠ "") :
    save_correction_v10 s = save_correction_v11 s := by
  have hcond : ¬ (pyStrip s.lastSourceText = "" ∨ pyStrip s.correctionInput = "") := by
    tauto
  unfold save_correction_v10 save_correction_v11
  rw [if_neg hcond, if_neg hcond]
  simp only [cond_takeLast]

/-- Concrete instance of the C10 theorem. -/
def c10State : LearnState :=
  { lastSourceText := "good morning", correctionInput := "早安",
    storedExamples := [⟨"x", "y"⟩] }

theorem save_correction_v10_v11_agree_witness :
    save_correction_v10 c10State = save_correction_v11 c10State :=
  save_correction_v10_v11_agree c10State (by decide) (by decide)

/-- Python str.strip of a single character set, here strip of the double
quote character as in content.strip().strip(chr 34) of the Groq branch:
removes leading and trailing occurrences of the character. -/
def stripChar (c : Char) (s : String) : String :=
  String.mk (((s.data.dropWhile (fun a => a = c)).reverse.dropWhile (fun a => a = c)).reverse)

/-- Items of each language QComboBox of v1.1, in order. -/
def langComboItems : List String := ["中文", "英文", "日文"]

/-- currentText of a language combo whose currentIndex is i. -/
def langComboText (i : Nat) : String := langComboItems.getD i ""

/-- Items of the translation-service QComboBox of v1.1; the Python
dispatch compares self.translator_combo.currentText() against the five
display strings. -/
inductive Service where
  | groqLlama3
  | googleFree
  | translatorsAgg
  | geminiPro
  | deeplApi
deriving DecidableEq, Repr

/-- The UI state of v1.1 that translate_text, handle_text_changed and
swap_languages read and write: the two panes, the two language combos,
the direction flag, the API key store, the single-shot debounce timer
(pending interval in milliseconds, none when not running) and the media
player playback flag. -/
structure AppState where
  leftText : String
  rightText : String
  leftLangIdx : Nat
  rightLangIdx : Nat
  translateLeftToRight : Bool
  leftReadOnly : Bool
  rightReadOnly : Bool
  service : Service
  apiKeys : Service → String
  lastSourceText : String
  translateTimer : Option Nat
  playing : Bool

/-- Results of the external calls made by translate_text, passed in
explicitly: for each provider, Except.error e models the Python call
raising an exception whose str is e, and Except.ok models a normal
return.  The field s2twp is the conversion opencc.OpenCC s2twp applied
by cc.convert. -/
structure Oracle where
  googleTranslate : Except String String
  groqCompletion : Except String String
  geminiGenerate : Except String String
  translatorsTranslate : Except String String
  deeplTranslate : Except String String
  s2twp : String → String

/-- Language map of the Translators branch for the source side:
lang_map = zh / en / ja with default "auto" for src. -/
def translatorsSrcCode (name : String) : String :=
  if name = "中文" then "zh"
  else if name = "英文" then "en"
  else if name = "日文" then "ja"
  else "auto"

/-- Language map of the Translators branch for the destination side:
same table with default "en" for dest. -/
def translatorsDestCode (name : String) : String :=
  if name = "中文" then "zh"
  else if name = "英文" then "en"
  else if name = "日文" then "ja"
  else "en"

/-- Body of the try block of translate_text (v1.1 lines 444-510): the
string-keyed dispatch over the selected service.  Produces the value of
the translation variable finally written by target_widget.setText, or
the text of the exception the branch raised (including the ValueError
raised on a missing API key, where a missing or empty key is modelled as
the empty string).  Language codes computed by get_lang_code are inputs
of the external calls and therefore absorbed by the oracle. -/
def translateBody (o : Oracle) (service : Service) (apiKeys : Service → String)
    (destLangName : String) : Except String String :=
  match service with
  | Service.googleFree =>
      o.googleTranslate
  | Service.groqLlama3 =>
      if apiKeys Service.groqLlama3 = "" then
        Except.error "請先在設定中保存 Groq API Key"
      else
        match o.groqCompletion with
        | Except.error e => Except.error e
        | Except.ok content =>
            let translation := stripChar (Char.ofNat 34) (pyStrip content)
            if destLangName = "中文" then Except.ok (o.s2twp translation)
            else Except.ok translation
  | Service.geminiPro =>
      if apiKeys Service.geminiPro = "" then
        Except.error "請先保存 Gemini Pro API Key"
      else
        o.geminiGenerate
  | Service.translatorsAgg =>
      match o.translatorsTranslate with
      | Except.error e => Except.error e
      | Except.ok translation =>
          if translatorsDestCode destLangName = "zh" then Except.ok (o.s2twp translation)
          else Except.ok translation
  | Service.deeplApi =>
      if apiKeys Service.deeplApi = "" then
        Except.error "請先設置 DeepL API Key"
      else
        o.deeplTranslate

/-- Trimmed text of the active source pane, as translate_text computes
source_text. -/
def sourceTextOf (s : AppState) : String :=
  pyStrip (if s.translateLeftToRight then s.leftText else s.rightText)

/-- Text of the target pane (the pane translate_text writes into). -/
def targetTextOf (s : AppState) : String :=
  if s.translateLeftToRight then s.rightText else s.leftText

/-- The dest_lang_name of translate_text: currentText of the language
combo on the target side. -/
def destLangNameOf (s : AppState) : String :=
  langComboText (if s.translateLeftToRight then s.rightLangIdx else s.leftLangIdx)

/-- target_widget.setText t (also target_widget.clear() with t empty). -/
def setTargetText (t : String) (s : AppState) : AppState :=
  if s.translateLeftToRight then { s with rightText := t } else { s with leftText := t }

/-- TranslatorApp.translate_text (v1.1 lines 424-512).  Returns the new
state together with true iff the method went past the empty-source guard
and dispatched to the selected provider.  The method is total: the
Python except clause is the final match, rendering any exception of the
dispatch as the string 翻譯錯誤: followed by str(e) in the target pane,
so no exception reaches the caller. -/
def translate_text (o : Oracle) (s : AppState) : AppState × Bool :=
  let source_text := sourceTextOf s
  let dest_lang_name := destLangNameOf s
  if source_text = "" then
    (setTargetText "" s, false)
  else
    let s1 := { s with lastSourceText := source_text }
    match translateBody o s1.service s1.apiKeys dest_lang_name with
    | Except.ok translation => (setTargetText translation s1, true)
    | Except.error e => (setTargetText ("翻譯錯誤: " ++ e) s1, true)

/-- TranslatorApp.handle_text_changed (v1.1 lines 409-418), the slot of
each textChanged signal; isLeft says which pane changed.  Edits of the
non-source pane are ignored; an empty (after strip) source clears the
target pane and returns without starting the timer; otherwise the
1200 ms debounce timer is (re)started. -/
def handle_text_changed (isLeft : Bool) (s : AppState) : AppState :=
  if isLeft ≠ s.translateLeftToRight then s
  else
    let sourceText := if isLeft then s.leftText else s.rightText
    if pyStrip sourceText = "" then
      if isLeft then { s with rightText := "" } else { s with leftText := "" }
    else
      { s with translateTimer := some 1200 }

/-- TranslatorApp.trigger_translation (v1.1 lines 420-422), connected to
currentTextChanged of both language combos: restarts the single-shot
timer at 50 ms. -/
def trigger_translation (s : AppState) : AppState :=
  { s with translateTimer := some 50 }

/-- setCurrentIndex on the left language combo.  A programmatic index
change fires currentTextChanged exactly when the displayed text changes,
and that signal is connected to trigger_translation. -/
def setLeftLangIdx (i : Nat) (s : AppState) : AppState :=
  let s1 := { s with leftLangIdx := i }
  if langComboText i ≠ langComboText s.leftLangIdx then trigger_translation s1 else s1

/-- setCurrentIndex on the right language combo; same signal behavior as
the left one. -/
def setRightLangIdx (i : Nat) (s : AppState) : AppState :=
  let s1 := { s with rightLangIdx := i }
  if langComboText i ≠ langComboText s.rightLangIdx then trigger_translation s1 else s1

/-- TranslatorApp.stop_audio (v1.1 lines 638-641): stops the player when
it is in the playing state. -/
def stop_audio (s : AppState) : AppState :=
  if s.playing then { s with playing := false } else s

/-- TranslatorApp.update_editor_states (v1.1 lines 530-541): sets the
read-only flags (and the background colors, not modelled) from the
current direction. -/
def update_editor_states (s : AppState) : AppState :=
  if s.translateLeftToRight then
    { s with leftReadOnly := false, rightReadOnly := true }
  else
    { s with leftReadOnly := true, rightReadOnly := false }

/-- TranslatorApp.swap_languages (v1.1 lines 514-528).  Stops audio, sets
each language combo to the other index (these two combos stay connected,
so their currentTextChanged may fire trigger_translation), disconnects
the two textChanged signals, exchanges the pane texts with setPlainText
(firing no handler while disconnected), flips the direction, updates the
editor states, and reconnects the textChanged signals. -/
def swap_languages (s : AppState) : AppState :=
  let s0 := stop_audio s
  let leftIdx := s0.leftLangIdx
  let rightIdx := s0.rightLangIdx
  let s1 := setLeftLangIdx rightIdx s0
  let s2 := setRightLangIdx leftIdx s1
  let leftContent := s2.leftText
  let rightContent := s2.rightText
  let s3 := { s2 with leftText := rightContent, rightText := leftContent }
  let s4 := { s3 with translateLeftToRight := !s3.translateLeftToRight }
  update_editor_states s4

lemma stop_audio_eq (s : AppState) : stop_audio s = { s with playing := false } := by
  unfold stop_audio
  by_cases h : s.playing
  · rw [if_pos h]
  · rw [if_neg h]
    cases s
    simp_all

lemma setLeftLangIdx_eq (i : Nat) (s : AppState) :
    setLeftLangIdx i s =
      { s with leftLangIdx := i,
               translateTimer :=
                 if langComboText i = langComboText s.leftLangIdx then s.translateTimer
                 else some 50 } := by
  unfold setLeftLangIdx trigger_translation
  by_cases h : langComboText i = langComboText s.leftLangIdx
  · simp [h]
  · simp [h]

lemma setRightLangIdx_eq (i : Nat) (s : AppState) :
    setRightLangIdx i s =
      { s with rightLangIdx := i,
               translateTimer :=
                 if langComboText i = langComboText s.rightLangIdx then s.translateTimer
                 else some 50 } := by
  unfold setRightLangIdx trigger_translation
  by_cases h : langComboText i = langComboText s.rightLangIdx
  · simp [h]
  · simp [h]

/-- Closed form of swap_languages: languages and texts exchanged,
direction flipped, read-only flags recomputed, playback stopped, and the
50 ms debounce started exactly when the two combos display different
languages. -/
lemma swap_languages_eq (s : AppState) :
    swap_languages s =
      { leftText := s.rightText
        rightText := s.leftText
        leftLangIdx := s.rightLangIdx
        rightLangIdx := s.leftLangIdx
        translateLeftToRight := !s.translateLeftToRight
        leftReadOnly := s.translateLeftToRight
        rightReadOnly := !s.translateLeftToRight
        service := s.service
        apiKeys := s.apiKeys
        lastSourceText := s.lastSourceText
        translateTimer :=
          if langComboText s.leftLangIdx = langComboText s.rightLangIdx then s.translateTimer
          else some 50
        playing := false } := by
  unfold swap_languages update_editor_states
  simp only [stop_audio_eq, setLeftLangIdx_eq, setRightLangIdx_eq]
  by_cases hc : langComboText s.leftLangIdx = langComboText s.rightLangIdx
  · by_cases hl : s.translateLeftToRight <;>
      simp [hc, hl]
  · have hc2 : ¬ langComboText s.rightLangIdx = langComboText s.leftLangIdx :=
      fun h => hc h.symm
    by_cases hl : s.translateLeftToRight <;>
      simp [hc, hc2, hl]

lemma targetTextOf_setTargetText (t : String) (s : AppState) :
    targetTextOf (setTargetText t s) = t := by
  unfold targetTextOf setTargetText
  by_cases hl : s.translateLeftToRight <;> simp [hl]

/-- C1: for every selected provider, every oracle outcome and every state
whose active source pane is non-empty after trimming, translate_text
dispatches and never lets an exception reach its caller (the embedding is
a total function): when the provider branch raises, the target pane
receives the string 翻譯錯誤: followed by the exception text, and when it
succeeds the target pane receives the branch result string, possibly
empty. -/
theorem translate_text_error_contract (o : Oracle) (s : AppState)
    (h : sourceTextOf s ≠ "") :
    ((translate_text o s).2 = true
    ∧ (∀ e, translateBody o s.service s.apiKeys (destLangNameOf s) = Except.error e →
        targetTextOf (translate_text o s).1 = "翻譯錯誤: " ++ e)
    ∧ (∀ t, translateBody o s.service s.apiKeys (destLangNameOf s) = Except.ok t →
        targetTextOf (translate_text o s).1 = t)) := by
  refine ⟨?_, ?_, ?_⟩
  · simp only [translate_text]
    rw [if_neg h]
    cases hb : translateBody o s.service s.apiKeys (destLangNameOf s) <;> rfl
  · intro e he
    simp only [translate_text]
    rw [if_neg h, he]
    exact targetTextOf_setTargetText _ _
  · intro t ht
    simp only [translate_text]
    rw [if_neg h, ht]
    exact targetTextOf_setTargetText _ _

/-- Concrete instance of the C1 theorem: the free Google provider fails
with message timeout and the target pane ends up with the formatted
error string. -/
def c1Oracle : Oracle :=
  { googleTranslate := Except.error "timeout"
    groqCompletion := Except.error "na"
    geminiGenerate := Except.error "na"
    translatorsTranslate := Except.error "na"
    deeplTranslate := Except.error "na"
    s2twp := fun t => t }

def c1State : AppState :=
  { leftText := "hello", rightText := "", leftLangIdx := 1, rightLangIdx := 0,
    translateLeftToRight := true, leftReadOnly := false, rightReadOnly := true,
    service := Service.googleFree, apiKeys := fun _ => "",
    lastSourceText := "", translateTimer := none, playing := false }

theorem translate_text_error_contract_witness :
    targetTextOf (translate_text c1Oracle c1State).1 = "翻譯錯誤: timeout" :=
  (translate_text_error_contract c1Oracle c1State (by decide)).2.1 "timeout" rfl

/-- C3: when the active source pane is empty after trimming, the
text-changed handler clears the target pane without starting the debounce
timer, and translate_text itself clears the target pane and returns
before dispatching to any provider. -/
theorem empty_source_no_dispatch (o : Oracle) (s : AppState)
    (h : sourceTextOf s = "") :
    ((handle_text_changed s.translateLeftToRight s).translateTimer = s.translateTimer
    ∧ targetTextOf (handle_text_changed s.translateLeftToRight s) = ""
    ∧ (translate_text o s).2 = false
    ∧ targetTextOf (translate_text o s).1 = "") := by
  refine ⟨?_, ?_, ?_, ?_⟩ <;>
    by_cases hl : s.translateLeftToRight <;>
      simp_all [handle_text_changed, translate_text, sourceTextOf, targetTextOf, setTargetText]

/-- Concrete instance of the C3 theorem: a whitespace-only source pane. -/
def c3State : AppState :=
  { leftText := "   ", rightText := "stale", leftLangIdx := 0, rightLangIdx := 1,
    translateLeftToRight := true, leftReadOnly := false, rightReadOnly := true,
    service := Service.googleFree, apiKeys := fun _ => "",
    lastSourceText := "", translateTimer := none, playing := false }

theorem empty_source_no_dispatch_witness :
    (translate_text c1Oracle c3State).2 = false
    ∧ targetTextOf (translate_text c1Oracle c3State).1 = "" :=
  ⟨(empty_source_no_dispatch c1Oracle c3State (by decide)).2.2.1,
   (empty_source_no_dispatch c1Oracle c3State (by decide)).2.2.2⟩

/-- Oracle for the C4 counterexample: the Gemini call returns a simplified
script string and the OpenCC conversion is observably non-trivial. -/
def c4Oracle : Oracle :=
  { googleTranslate := Except.error "na"
    groqCompletion := Except.error "na"
    geminiGenerate := Except.ok "简体字"
    translatorsTranslate := Except.error "na"
    deeplTranslate := Except.error "na"
    s2twp := fun t => String.append "轉換:" t }

def c4State : AppState :=
  { leftText := "hello", rightText := "", leftLangIdx := 1, rightLangIdx := 0,
    translateLeftToRight := true, leftReadOnly := false, rightReadOnly := true,
    service := Service.geminiPro, apiKeys := fun _ => "key",
    lastSourceText := "", translateTimer := none, playing := false }

/-- C4 counterexample: with target language 中文 the Gemini Pro branch of
v1.1 writes response.text to the target pane as is, not the OpenCC s2twp
conversion of it, refuting the claim that every LLM-based provider output
passes through the script normalizer. -/
theorem gemini_skips_s2twp_counterexample :
    targetTextOf (translate_text c4Oracle c4State).1 = "简体字"
    ∧ c4Oracle.s2twp "简体字" ≠ "简体字" := by
  constructor
  · rfl
  · decide

/-- C4 amended: of the three cited branches only Groq Llama3 and the
Translators aggregator pass their output through OpenCC s2twp when the
target language is 中文; the Gemini Pro branch does not (see the
counterexample). -/
theorem llm_aggregator_s2twp_amended :
    (∀ (o : Oracle) (s : AppState) (c : String),
        s.service = Service.groqLlama3 →
        s.apiKeys Service.groqLlama3 ≠ "" →
        destLangNameOf s = "中文" →
        o.groqCompletion = Except.ok c →
        sourceTextOf s ≠ "" →
        targetTextOf (translate_text o s).1 =
          o.s2twp (stripChar (Char.ofNat 34) (pyStrip c)))
    ∧ (∀ (o : Oracle) (s : AppState) (t : String),
        s.service = Service.translatorsAgg →
        destLangNameOf s = "中文" →
        o.translatorsTranslate = Except.ok t →
        sourceTextOf s ≠ "" →
        targetTextOf (translate_text o s).1 = o.s2twp t) := by
  constructor
  · intro o s c hserv hkey hdest hc hsrc
    simp [translate_text, translateBody, hserv, hkey, hdest, hc, hsrc,
      targetTextOf_setTargetText]
  · intro o s t hserv hdest ht hsrc
    simp [translate_text, translateBody, translatorsDestCode, hserv, hdest, ht, hsrc,
      targetTextOf_setTargetText]

/-- Concrete instance of the amended C4 theorem, Groq branch. -/
def c4wOracle : Oracle :=
  { googleTranslate := Except.error "na"
    groqCompletion := Except.ok " 水 "
    geminiGenerate := Except.error "na"
    translatorsTranslate := Except.ok "简"
    deeplTranslate := Except.error "na"
    s2twp := fun t => String.append "轉換:" t }

def c4wState : AppState :=
  { leftText := "water", rightText := "", leftLangIdx := 1, rightLangIdx := 0,
    translateLeftToRight := true, leftReadOnly := false, rightReadOnly := true,
    service := Service.groqLlama3, apiKeys := fun _ => "gsk",
    lastSourceText := "", translateTimer := none, playing := false }

theorem llm_aggregator_s2twp_amended_witness :
    targetTextOf (translate_text c4wOracle c4wState).1 =
      c4wOracle.s2twp (stripChar (Char.ofNat 34) (pyStrip " 水 ")) :=
  llm_aggregator_s2twp_amended.1 c4wOracle c4wState " 水 " rfl (by decide) rfl rfl
    (by decide)

/-- Invariant maintained by init_ui and by every swap: the read-only flags
agree with the direction (update_editor_states establishes exactly
this). -/
def editorStatesConsistent (s : AppState) : Prop :=
  s.leftReadOnly = !s.translateLeftToRight ∧ s.rightReadOnly = s.translateLeftToRight

/-- C5: with no intervening edits, swapping twice restores the original
direction, both pane texts, both language selections and both read-only
flags, for every state whose read-only flags are consistent with its
direction (the invariant update_editor_states maintains). -/
theorem swap_languages_involutive (s : AppState) (h : editorStatesConsistent s) :
    ((swap_languages (swap_languages s)).translateLeftToRight = s.translateLeftToRight
    ∧ (swap_languages (swap_languages s)).leftText = s.leftText
    ∧ (swap_languages (swap_languages s)).rightText = s.rightText
    ∧ (swap_languages (swap_languages s)).leftLangIdx = s.leftLangIdx
    ∧ (swap_languages (swap_languages s)).rightLangIdx = s.rightLangIdx
    ∧ (swap_languages (swap_languages s)).leftReadOnly = s.leftReadOnly
    ∧ (swap_languages (swap_languages s)).rightReadOnly = s.rightReadOnly) := by
  obtain ⟨h1, h2⟩ := h
  simp [swap_languages_eq, h1, h2]

/-- Concrete instance of the C5 theorem. -/
def c5State : AppState :=
  { leftText := "hi", rightText := "你好", leftLangIdx := 1, rightLangIdx := 0,
    translateLeftToRight := true, leftReadOnly := false, rightReadOnly := true,
    service := Service.googleFree, apiKeys := fun _ => "",
    lastSourceText := "hi", translateTimer := none, playing := false }

theorem swap_languages_involutive_witness :
    (swap_languages (swap_languages c5State)).leftText = "hi"
    ∧ (swap_languages (swap_languages c5State)).translateLeftToRight = true := by
  have h := swap_languages_involutive c5State (by constructor <;> rfl)
  exact ⟨h.2.1, h.1⟩

/-- State for the C6 counterexample: different languages selected on the
two sides, no pending debounce timer. -/
def c6State : AppState :=
  { leftText := "hello", rightText := "", leftLangIdx := 0, rightLangIdx := 1,
    translateLeftToRight := true, leftReadOnly := false, rightReadOnly := true,
    service := Service.googleFree, apiKeys := fun _ => "",
    lastSourceText := "", translateTimer := none, playing := false }

/-- C6 counterexample: the swap itself schedules a translation.  The two
textChanged signals are indeed disconnected during the swap, but the two
language combos stay connected to trigger_translation, and
setCurrentIndex fires their currentTextChanged; so a swap with two
different selected languages starts the 50 ms debounce timer even though
no timer was pending before. -/
theorem swap_schedules_translation_counterexample :
    c6State.translateTimer = none
    ∧ (swap_languages c6State).translateTimer = some 50 := by
  constructor
  · rfl
  · rfl

/-- C6 amended: the text exchange during a swap fires no text-changed
handler (the signals are disconnected around it), but the language-combo
change signals stay connected: a swap schedules a 50 ms debounced
translation exactly when the two panes display different languages, and
leaves the timer untouched when both panes display the same language. -/
theorem swap_languages_timer_amended (s : AppState) :
    (swap_languages s).translateTimer =
      if langComboText s.leftLangIdx = langComboText s.rightLangIdx then s.translateTimer
      else some 50 := by
  rw [swap_languages_eq]

/-- State of the temporary-audio-file machinery: the tracked list
self.temp_files, self.current_playing_file, the player playback state,
the set of paths existing on disk, and (v1.0 only) the deferred cleanup
scheduled by QTimer.singleShot inside stop_audio. -/
structure AudioState where
  tempFiles : List String
  currentPlayingFile : Option String
  playing : Bool
  disk : Finset String
  deferredCleanup : Option String

/-- Model of os.unlink over the modelled disk: deletes the path, raising
(OSError) when the path does not exist. -/
def unlink (p : String) (disk : Finset String) : Except Unit (Finset String) :=
  if p ∈ disk then Except.ok (disk.erase p) else Except.error ()

/-- TranslatorApp.cleanup_single_file (v1.1 lines 549-556): acts only on
paths present in self.temp_files; unlinks and then removes the path from
the list; a PermissionError or OSError from unlink is caught and logged,
leaving the path tracked. -/
def cleanup_single_file (a : AudioState) (p : String) : AudioState :=
  if p ∈ a.tempFiles then
    match unlink p a.disk with
    | Except.ok d => { a with disk := d, tempFiles := a.tempFiles.erase p }
    | Except.error _ => a
  else a

/-- TranslatorApp.stop_audio of v1.1 (lines 638-641) acting on the audio
state: stops the player when it is playing; nothing else. -/
def stopAudioV11 (a : AudioState) : AudioState :=
  if a.playing then { a with playing := false } else a

/-- TranslatorApp.stop_audio of v1.0 (lines 635-643): when playing, stops
the player, schedules a deferred cleanup_single_file of the current file
after a 100 ms grace period, and clears current_playing_file. -/
def stop_audio_v10 (a : AudioState) : AudioState :=
  if a.playing then
    match a.currentPlayingFile with
    | some p =>
        { a with playing := false, currentPlayingFile := none, deferredCleanup := some p }
    | none => { a with playing := false }
  else a

/-- TranslatorApp.cleanup_all_temp_files (v1.1 lines 558-563): stops
audio, then runs cleanup_single_file on every path of a snapshot copy of
self.temp_files. -/
def cleanup_all_temp_files_v11 (a : AudioState) : AudioState :=
  let a1 := stopAudioV11 a
  a1.tempFiles.foldl cleanup_single_file a1

/-- TranslatorApp.cleanup_all_temp_files of v1.0 (lines 549-558): stops
audio, then unlinks every tracked path that exists on disk, swallowing
errors; it never removes entries from self.temp_files. -/
def cleanup_all_temp_files_v10 (a : AudioState) : AudioState :=
  let a1 := stop_audio_v10 a
  a1.tempFiles.foldl
    (fun acc p => if p ∈ acc.disk then { acc with disk := acc.disk.erase p } else acc) a1

lemma stopAudioV11_tempFiles (a : AudioState) :
    (stopAudioV11 a).tempFiles = a.tempFiles := by
  unfold stopAudioV11
  by_cases h : a.playing <;> simp [h]

lemma stopAudioV11_disk (a : AudioState) : (stopAudioV11 a).disk = a.disk := by
  unfold stopAudioV11
  by_cases h : a.playing <;> simp [h]

lemma stop_audio_v10_tempFiles (a : AudioState) :
    (stop_audio_v10 a).tempFiles = a.tempFiles := by
  unfold stop_audio_v10
  by_cases h : a.playing
  · cases a.currentPlayingFile <;> simp [h]
  · simp [h]

lemma stop_audio_v10_disk (a : AudioState) : (stop_audio_v10 a).disk = a.disk := by
  unfold stop_audio_v10
  by_cases h : a.playing
  · cases a.currentPlayingFile <;> simp [h]
  · simp [h]

lemma cleanup_single_file_disk_mono (a : AudioState) (q p : String)
    (h : p ∉ a.disk) : p ∉ (cleanup_single_file a q).disk := by
  unfold cleanup_single_file unlink
  by_cases hq : q ∈ a.tempFiles
  · rw [if_pos hq]
    by_cases hd : q ∈ a.disk
    · rw [if_pos hd]
      exact fun hmem => h (Finset.mem_of_mem_erase hmem)
    · rw [if_neg hd]
      exact h
  · rw [if_neg hq]
    exact h

lemma cleanup_fold_disk_mono (l : List String) (a : AudioState) (p : String)
    (h : p ∉ a.disk) : p ∉ (l.foldl cleanup_single_file a).disk := by
  induction l generalizing a with
  | nil => exact h
  | cons q t ih => exact ih _ (cleanup_single_file_disk_mono a q p h)

lemma cleanup_fold_v11 (l : List String) (a : AudioState)
    (hnd : l.Nodup) (hsub : ∀ p ∈ l, p ∈ a.disk) (heq : a.tempFiles = l) :
    (l.foldl cleanup_single_file a).tempFiles = []
    ∧ ∀ p ∈ l, p ∉ (l.foldl cleanup_single_file a).disk := by
  induction l generalizing a with
  | nil => exact ⟨heq, by simp⟩
  | cons q t ih =>
      have hq_mem : q ∈ a.tempFiles := by
        rw [heq]
        exact List.mem_cons_self q t
      have hq_disk : q ∈ a.disk := hsub q (List.mem_cons_self q t)
      have hstep : cleanup_single_file a q =
          { a with disk := a.disk.erase q, tempFiles := a.tempFiles.erase q } := by
        unfold cleanup_single_file unlink
        rw [if_pos hq_mem, if_pos hq_disk]
      have hq_not_t : q ∉ t := (List.nodup_cons.mp hnd).1
      have hnd' : t.Nodup := (List.nodup_cons.mp hnd).2
      have htemp : (cleanup_single_file a q).tempFiles = t := by
        rw [hstep]
        show a.tempFiles.erase q = t
        rw [heq]
        exact List.erase_cons_head q t
      have hsub' : ∀ p ∈ t, p ∈ (cleanup_single_file a q).disk := by
        intro p hp
        rw [hstep]
        exact Finset.mem_erase_of_ne_of_mem (fun hpq => hq_not_t (hpq ▸ hp))
          (hsub p (List.mem_cons_of_mem q hp))
      obtain ⟨ih1, ih2⟩ := ih (cleanup_single_file a q) hnd' hsub' htemp
      refine ⟨ih1, ?_⟩
      intro p hp
      rcases List.mem_cons.mp hp with hpq | hpt
      · subst hpq
        have hgone : p ∉ (cleanup_single_file a p).disk := by
          rw [hstep]
          exact Finset.not_mem_erase p a.disk
        exact cleanup_fold_disk_mono t _ p hgone
      · exact ih2 p hpt

lemma v10_fold_tempFiles (l : List String) (a : AudioState) :
    (l.foldl
      (fun acc p => if p ∈ acc.disk then { acc with disk := acc.disk.erase p } else acc)
      a).tempFiles = a.tempFiles := by
  induction l generalizing a with
  | nil => rfl
  | cons q t ih =>
      rw [List.foldl_cons, ih]
      by_cases h : q ∈ a.disk <;> simp [h]

lemma v10_step_disk_mono (a : AudioState) (q p : String) (h : p ∉ a.disk) :
    p ∉ ((fun acc r => if r ∈ acc.disk then { acc with disk := acc.disk.erase r } else acc)
      a q).disk := by
  by_cases hq : q ∈ a.disk
  · simp only [hq, if_true]
    exact fun hmem => h (Finset.mem_of_mem_erase hmem)
  · simp only [hq, if_false]
    exact h

lemma v10_fold_disk_mono (l : List String) (a : AudioState) (p : String)
    (h : p ∉ a.disk) :
    p ∉ (l.foldl
      (fun acc r => if r ∈ acc.disk then { acc with disk := acc.disk.erase r } else acc)
      a).disk := by
  induction l generalizing a with
  | nil => exact h
  | cons q t ih => exact ih _ (v10_step_disk_mono a q p h)

lemma v10_fold_deletes (l : List String) (a : AudioState) :
    ∀ p ∈ l, p ∉ (l.foldl
      (fun acc r => if r ∈ acc.disk then { acc with disk := acc.disk.erase r } else acc)
      a).disk := by
  induction l generalizing a with
  | nil => simp
  | cons q t ih =>
      intro p hp
      rw [List.foldl_cons]
      rcases List.mem_cons.mp hp with hpq | hpt
      · subst hpq
        apply v10_fold_disk_mono
        by_cases h : p ∈ a.disk <;> simp [h]
      · exact ih _ p hpt

/-- State for the C7 counterexample: one tracked file, present on disk,
nothing playing. -/
def c7State : AudioState :=
  { tempFiles := ["a.mp3"], currentPlayingFile := none, playing := false,
    disk := {"a.mp3"}, deferredCleanup := none }

/-- C7 counterexample: the v1.0 shutdown cleanup (one of the two cited
implementations) unlinks the tracked file from disk but never empties
self.temp_files, so after it completes the tracked-file list is still
["a.mp3"], refuting the claim that the tracked list is empty after the
shutdown cleanup. -/
theorem cleanup_all_v10_list_counterexample :
    (cleanup_all_temp_files_v10 c7State).tempFiles = ["a.mp3"]
    ∧ (cleanup_all_temp_files_v10 c7State).tempFiles ≠ []
    ∧ "a.mp3" ∉ (cleanup_all_temp_files_v10 c7State).disk := by
  refine ⟨rfl, by decide, by decide⟩

/-- C7 amended: for distinct tracked paths all present on disk, the v1.1
shutdown cleanup leaves the tracked list empty and none of the previously
tracked paths on disk; the v1.0 shutdown cleanup also removes every
tracked path from disk but returns with the tracked list unchanged. -/
theorem shutdown_cleanup_amended :
    (∀ a : AudioState, a.tempFiles.Nodup → (∀ p ∈ a.tempFiles, p ∈ a.disk) →
        (cleanup_all_temp_files_v11 a).tempFiles = []
        ∧ ∀ p ∈ a.tempFiles, p ∉ (cleanup_all_temp_files_v11 a).disk)
    ∧ (∀ a : AudioState,
        (cleanup_all_temp_files_v10 a).tempFiles = a.tempFiles
        ∧ ∀ p ∈ a.tempFiles, p ∉ (cleanup_all_temp_files_v10 a).disk) := by
  constructor
  · intro a hnd hsub
    simp only [cleanup_all_temp_files_v11]
    have ht : (stopAudioV11 a).tempFiles = a.tempFiles := stopAudioV11_tempFiles a
    have hd : (stopAudioV11 a).disk = a.disk := stopAudioV11_disk a
    rw [ht]
    exact cleanup_fold_v11 a.tempFiles (stopAudioV11 a) hnd
      (by rw [hd]; exact hsub) ht
  · intro a
    simp only [cleanup_all_temp_files_v10]
    have ht : (stop_audio_v10 a).tempFiles = a.tempFiles := stop_audio_v10_tempFiles a
    rw [ht]
    constructor
    · rw [v10_fold_tempFiles, ht]
    · exact v10_fold_deletes a.tempFiles (stop_audio_v10 a)

/-- Concrete instance of the amended C7 theorem. -/
def c7wState : AudioState :=
  { tempFiles := ["a.mp3", "b.mp3"], currentPlayingFile := none, playing := true,
    disk := {"a.mp3", "b.mp3", "other.txt"}, deferredCleanup := none }

theorem shutdown_cleanup_amended_witness :
    (cleanup_all_temp_files_v11 c7wState).tempFiles = []
    ∧ "a.mp3" ∉ (cleanup_all_temp_files_v11 c7wState).disk :=
  ⟨(shutdown_cleanup_amended.1 c7wState (by decide) (by decide)).1,
   (shutdown_cleanup_amended.1 c7wState (by decide) (by decide)).2 "a.mp3" (by decide)⟩

/-- Items of the voice-service QComboBox of v1.1. -/
inductive TtsService where
  | edgeTts
  | googleTts
  | systemTts
deriving DecidableEq, Repr

/-- External inputs of one text_to_speech call: the name of the named
temporary file, the outcome of the synthesis call of the selected
backend (Except.error e models the call raising with str e), and the
size os.path.getsize reports for the file afterwards. -/
structure TtsOracle where
  freshPath : String
  synthesis : Except String Unit
  resultSize : Nat

/-- TranslatorApp.text_to_speech (v1.1 lines 565-608).  Empty text
returns None at once.  Otherwise NamedTemporaryFile with delete False
creates the (empty) file on disk; the selected service synthesizes into
it inside the try block (Edge TTS first raises a ValueError when no
voice is selected); on success with positive size the path is appended
to self.temp_files and returned; on zero size, cleanup_single_file is
called on the path and None returned with no dialog; on exception, a
critical dialog is shown, cleanup_single_file is called on the path and
None returned.  Result: new audio state, returned path, dialog text. -/
def text_to_speech_v11 (o : TtsOracle) (service : TtsService) (edgeVoice : String)
    (text : String) (a : AudioState) : AudioState × Option String × Option String :=
  if text = "" then (a, none, none)
  else
    let temp_file_path := o.freshPath
    let a1 := { a with disk := insert temp_file_path a.disk }
    let branch : Except String Unit :=
      match service with
      | TtsService.edgeTts =>
          if edgeVoice = "" then Except.error "請先在 Edge TTS 選項中選擇一個語音"
          else o.synthesis
      | TtsService.googleTts => o.synthesis
      | TtsService.systemTts => o.synthesis
    match branch with
    | Except.ok _ =>
        if o.resultSize > 0 then
          ({ a1 with tempFiles := a1.tempFiles ++ [temp_file_path] }, some temp_file_path, none)
        else
          (cleanup_single_file a1 temp_file_path, none, none)
    | Except.error e =>
        (cleanup_single_file a1 temp_file_path, none, some ("生成語音時發生錯誤: " ++ e))

/-- Oracle and state for the C8 failing input: Google TTS synthesis
returns normally but writes zero bytes into the fresh file t.mp3. -/
def c8Oracle : TtsOracle :=
  { freshPath := "t.mp3", synthesis := Except.ok (), resultSize := 0 }

def c8State : AudioState :=
  { tempFiles := [], currentPlayingFile := none, playing := false,
    disk := ∅, deferredCleanup := none }

/-- C8 (code bug, evaluated at the failing input): on a zero-size
synthesis result the claim (and the inline comment of the else branch)
promise immediate cleanup and an error report, but cleanup_single_file
is invoked on a path that was never appended to self.temp_files, so its
membership guard makes it a no-op: no path is returned, no error dialog
is shown, the zero-byte file t.mp3 is still on disk, and it is not
tracked, so no later sweep will ever delete it. -/
theorem tts_zero_size_leaves_file :
    ((text_to_speech_v11 c8Oracle TtsService.googleTts "" "hi" c8State).2.1 = none
    ∧ (text_to_speech_v11 c8Oracle TtsService.googleTts "" "hi" c8State).2.2 = none
    ∧ "t.mp3" ∈ (text_to_speech_v11 c8Oracle TtsService.googleTts "" "hi" c8State).1.disk
    ∧ (text_to_speech_v11 c8Oracle TtsService.googleTts "" "hi" c8State).1.tempFiles = []) := by
  refine ⟨rfl, rfl, by decide, rfl⟩

end TranslatorApp
